import Mathlib

/-!
Shallow embedding of the agent-jira-skills repository (a set of thin Python
CLI utilities over the Jira / Confluence REST APIs) and proofs about it.

Python strings are modelled as `List Char` (`PyStr`); Python dicts with a
fixed key set become structures with `Option` fields; `sys.exit` and raised
exceptions become explicit result constructors; the network is modelled by
passing the HTTP outcome of a call as an explicit argument.

Source files embedded (paths relative to the repository root):
  - templates/python-jira-utils.py      (load_env, get_config, jira_request,
                                         build_adf, simple_adf)
  - jira-agile/scripts/bulk-create.py   (create_issue, transition_to_done, main)
  - jira-issues/scripts/create-one.py   (create_issue)
  - jira-issues/scripts/delete-all.py   (delete_issue, main loop)
  - jira-search/scripts/check-issues.py (make_request)
  - jira-spaces/scripts/create-space.py (main: key normalisation/validation)
  - jira-spaces/scripts/delete-space.py (confluence_request, main tail)
  - jira-transitions/scripts/workflow-demo.py (transition_to)
-/

/-- Python `str` modelled as a list of characters (code points). -/
abbrev PyStr := List Char

/-- Python `str.lower()` (ASCII case folding, as used by the scripts). -/
def pyLower (s : PyStr) : PyStr := s.map Char.toLower

/-- Python `str.upper()` (ASCII case folding, as used by the scripts). -/
def pyUpper (s : PyStr) : PyStr := s.map Char.toUpper

/-- Characters removed by Python `str.strip()` with no argument. -/
def pyIsSpace (c : Char) : Bool :=
  c = ' ' || c = '\t' || c = '\n' || c = '\x0d' || c = '\x0b' || c = '\x0c'

/-- Python `str.strip()`: drop leading and trailing whitespace. -/
def pyStrip (s : PyStr) : PyStr :=
  ((s.dropWhile pyIsSpace).reverse.dropWhile pyIsSpace).reverse

/-- Python `str.startswith('#')` as used on env-file lines. -/
def startsWithHash (s : PyStr) : Bool :=
  match s with
  | '#' :: _ => true
  | _ => false

/-- Python `line.split('=', 1)` for a line known to contain `'='`:
the part before the first `'='` and everything after it. -/
def splitOnceEq (s : PyStr) : PyStr × PyStr :=
  (s.takeWhile (fun c => c ≠ '='), (s.dropWhile (fun c => c ≠ '=')).drop 1)

/-- Decimal digits of a natural number, as Python `f'{n}'` renders it. -/
def pyStrOfNat (n : Nat) : PyStr := (toString n).toList

/-! ## JSON values and Python exceptions -/

/-- Values produced by `json.loads`; Python `None` is `Json.null`. -/
inductive Json where
  | null
  | bool (b : Bool)
  | num (n : Int)
  | str (s : PyStr)
  | arr (items : List Json)
  | obj (fields : List (PyStr × Json))

/-- Exceptions the scripts raise or propagate. -/
inductive PyExc where
  /-- `raise Exception(msg)` -/
  | exc (msg : PyStr)
  /-- `json.JSONDecodeError` escaping from `json.loads`. -/
  | jsonDecode (msg : PyStr)
  /-- an `HTTPError` re-raised unwrapped (bare `raise` in `delete_issue`). -/
  | httpErrorRaised (code : Nat) (body : PyStr)
deriving DecidableEq

/-- Outcome of `urlopen` for one request: a success response with an HTTP
status and body, or an `HTTPError` with its code and error body. -/
inductive HttpOutcome where
  | success (status : Nat) (body : PyStr)
  | httpError (code : Nat) (body : PyStr)
deriving DecidableEq

/-- Minimal model of Python's `json.loads`, used only where a theorem needs a
concrete parser: `json.loads('')` (and whitespace-only input) raises
`JSONDecodeError('Expecting value ...')`; the behaviour on other inputs is an
arbitrary stand-in and no general theorem depends on it — the request-helper
theorems are parametric in the parser. -/
def jsonLoadsModel (s : PyStr) : Except PyStr Json :=
  if pyStrip s = [] then .error ("Expecting value".toList) else .ok (.str s)

/-! ## Request helpers

Each script defines its own copy of the request helper; they differ in how
they treat status 204/202 and in how many characters of an error body they
keep. The parser `loads` stands for `json.loads`; a success body is fed to
it, and a Python `None` result (status 204/202 short-circuit) is `Json.null`,
exactly as in Python where `return None` and a parsed JSON `null` coincide. -/

/-- Embeds `jira_request` of templates/python-jira-utils.py (lines 98–125):
204 returns `None`; any other success body is parsed; an `HTTPError` becomes
`Exception(f'{e.code}: {error_body[:300]}')`. `jira_agile_request` (lines
128–145) is byte-for-byte the same logic and is covered by this definition. -/
def jira_request (loads : PyStr → Except PyStr Json) (resp : HttpOutcome) :
    Except PyExc Json :=
  match resp with
  | .success status body =>
      if status == 204 then .ok .null
      else
        match loads body with
        | .ok j => .ok j
        | .error m => .error (.jsonDecode m)
  | .httpError code body =>
      .error (.exc (pyStrOfNat code ++ (": ".toList) ++ body.take 300))

/-- Embeds `make_request` of jira-agile/scripts/bulk-create.py (lines 55–70),
jira-issues/scripts/create-one.py and jira-transitions/scripts/workflow-demo.py
(identical copies): 204 returns `None`; otherwise parse; error keeps the first
200 characters. -/
def scripts_make_request (loads : PyStr → Except PyStr Json)
    (resp : HttpOutcome) : Except PyExc Json :=
  match resp with
  | .success status body =>
      if status == 204 then .ok .null
      else
        match loads body with
        | .ok j => .ok j
        | .error m => .error (.jsonDecode m)
  | .httpError code body =>
      .error (.exc (pyStrOfNat code ++ (": ".toList) ++ body.take 200))

/-- Embeds `make_request` of jira-search/scripts/check-issues.py (lines
54–66): it has NO special case for status 204 — every success body is handed
to `json.loads`; an error keeps the first 200 characters. -/
def checkIssues_make_request (loads : PyStr → Except PyStr Json)
    (resp : HttpOutcome) : Except PyExc Json :=
  match resp with
  | .success _ body =>
      match loads body with
      | .ok j => .ok j
      | .error m => .error (.jsonDecode m)
  | .httpError code body =>
      .error (.exc (pyStrOfNat code ++ (": ".toList) ++ body.take 200))

/-- Embeds `confluence_request` of jira-spaces/scripts/create-space.py and
delete-space.py (lines 57–71): status 204 or 202 returns `None`; otherwise
parse; an error keeps the first 300 characters. -/
def confluence_request (loads : PyStr → Except PyStr Json)
    (resp : HttpOutcome) : Except PyExc Json :=
  match resp with
  | .success status body =>
      if status == 204 || status == 202 then .ok .null
      else
        match loads body with
        | .ok j => .ok j
        | .error m => .error (.jsonDecode m)
  | .httpError code body =>
      .error (.exc (pyStrOfNat code ++ (": ".toList) ++ body.take 300))

/-! ## ADF document builder (templates/python-jira-utils.py, lines 152–234) -/

/-- ADF node tree, mirroring the nested dicts `build_adf` emits. -/
inductive ADFNode where
  | text (s : PyStr)
  | heading (level : Nat) (content : List ADFNode)
  | paragraph (content : List ADFNode)
  | listItem (content : List ADFNode)
  | bulletList (content : List ADFNode)
  | codeBlock (language : PyStr) (content : List ADFNode)

/-- ADF document root `{'type': 'doc', 'version': 1, 'content': [...]}`. -/
structure ADFDoc where
  version : Nat
  content : List ADFNode

/-- A section dict passed to `build_adf`: each key may independently be
present or absent. -/
structure SectionSpec where
  heading : Option PyStr
  level : Option Nat
  paragraph : Option PyStr
  bullets : Option (List PyStr)
  code : Option PyStr
  language : Option PyStr

/-- Blocks one section contributes, in the order the four `if 'key' in
section` checks of `build_adf` run: heading, paragraph, bullets, code. -/
def sectionBlocks (s : SectionSpec) : List ADFNode :=
  (match s.heading with
   | some h => [.heading (s.level.getD 2) [.text h]]
   | none => []) ++
  (match s.paragraph with
   | some p => [.paragraph [.text p]]
   | none => []) ++
  (match s.bullets with
   | some bs => [.bulletList (bs.map (fun b => .listItem [.paragraph [.text b]]))]
   | none => []) ++
  (match s.code with
   | some c => [.codeBlock (s.language.getD ("text".toList)) [.text c]]
   | none => [])

/-- Embeds `build_adf(sections)` (lines 152–213). -/
def build_adf (sections : List SectionSpec) : ADFDoc :=
  ⟨1, (sections.map sectionBlocks).flatten⟩

/-- Embeds `simple_adf(text)` (lines 216–234). -/
def simple_adf (text : PyStr) : ADFDoc :=
  ⟨1, [.paragraph [.text text]]⟩

/-- Number of keys among {heading, paragraph, bullets, code} present in a
section (the count the spec predicts for the blocks one section emits). -/
def presentFieldCount (s : SectionSpec) : Nat :=
  (if s.heading.isSome then 1 else 0) +
  (if s.paragraph.isSome then 1 else 0) +
  (if s.bullets.isSome then 1 else 0) +
  (if s.code.isSome then 1 else 0)

/-- Blocks of one section as §4.3 of the spec words it: a heading block (text
plus level, default level 2) when a heading is carried, then a paragraph
block, then a bullet list whose items are each wrapped in their own list
item/paragraph pair, then a code block (default language "text") — written
from the spec's sentences, to be compared with `sectionBlocks` from the
source. -/
def specSectionBlocks (s : SectionSpec) : List ADFNode :=
  (s.heading.map (fun h => ADFNode.heading (s.level.getD 2) [.text h])).toList ++
  (s.paragraph.map (fun p => ADFNode.paragraph [.text p])).toList ++
  (s.bullets.map (fun bs =>
    ADFNode.bulletList (bs.map (fun b => .listItem [.paragraph [.text b]])))).toList ++
  (s.code.map (fun c =>
    ADFNode.codeBlock (s.language.getD ("text".toList)) [.text c])).toList

/-! ## Workflow transitions -/

/-- One transition dict as the scripts read it: `t['id']`, `t['name']`,
`t['to']['name']`. -/
structure Transition where
  id : PyStr
  name : PyStr
  toName : PyStr
deriving DecidableEq

/-- Predicate of the `for t in transitions` loop in `transition_to`
(workflow-demo.py lines 113–132): case-insensitive match of the target
against the destination status name or the display name. -/
def transitionMatches (target : PyStr) (t : Transition) : Bool :=
  pyLower t.toName == pyLower target || pyLower t.name == pyLower target

/-- Embeds the lookup loop of `transition_to` (workflow-demo.py lines
117–122): first transition in list order matching either field, else none. -/
def find_transition (transitions : List Transition) (target : PyStr) :
    Option Transition :=
  transitions.find? (transitionMatches target)

/-- Embeds the lookup loop of `transition_to_done` (bulk-create.py lines
108–113): first transition whose destination status name lowercases to
"done"; the display name is NOT consulted. -/
def find_done_transition (transitions : List Transition) : Option Transition :=
  transitions.find? (fun t => pyLower t.toName == ("done".toList))

/-- The three-transition example of spec §8. -/
def exampleTransitions : List Transition :=
  [⟨"11".toList, "Start".toList, "Progressing".toList⟩,
   ⟨"21".toList, "Close".toList, "Done".toList⟩,
   ⟨"31".toList, "Reopen".toList, "To Do".toList⟩]

/-! ## Environment loading and configuration
(templates/python-jira-utils.py lines 27–71; every script repeats the same
`load_env` body) -/

/-- The process environment: a partial map from variable name to value. -/
def Env : Type := PyStr → Option PyStr

/-- Python `os.environ.setdefault(k, v)`: set `k` to `v` only when absent. -/
def setdefault (env : Env) (k v : PyStr) : Env :=
  match env k with
  | some _ => env
  | none => fun x => if x = k then some v else env x

/-- One iteration of the `for line in f` loop of `load_env` (lines 40–45):
strip the line; when it is non-empty, not a `#` comment and contains `'='`,
split at the first `'='` and `setdefault` the stripped key to the stripped
value. -/
def processEnvLine (env : Env) (line : PyStr) : Env :=
  let l := pyStrip line
  if l ≠ [] && !startsWithHash l && l.contains '=' then
    setdefault env (pyStrip (splitOnceEq l).1) (pyStrip (splitOnceEq l).2)
  else env

/-- Embeds `load_env` (lines 27–45) applied to the lines of an existing
`.env` file; a missing file is the empty line list. -/
def load_env (lines : List PyStr) (env : Env) : Env :=
  lines.foldl processEnvLine env

/-- The config dict `get_config` builds (lines 57–63). -/
structure Config where
  email : Option PyStr
  token : Option PyStr
  base_url : Option PyStr
  project_key : PyStr
  board_id : PyStr
deriving DecidableEq

/-- Python truthiness of an `os.environ.get` result: `None` and the empty
string are falsy; `all([...])` in `get_config` tests exactly this. -/
def truthyOpt : Option PyStr → Bool
  | none => false
  | some s => !s.isEmpty

/-- Result of `get_config`: the config dict, or `sys.exit(1)` after printing
the required variable names. -/
inductive ConfigResult where
  | ok (c : Config)
  | exited (code : Nat)
deriving DecidableEq

/-- Embeds `get_config` (templates/python-jira-utils.py lines 48–71). -/
def get_config (env : Env) : ConfigResult :=
  let c : Config :=
    ⟨env ("JIRA_EMAIL".toList), env ("JIRA_API_TOKEN".toList),
     env ("JIRA_BASE_URL".toList),
     (env ("JIRA_PROJECT_KEY".toList)).getD ("SCRUM".toList),
     (env ("JIRA_BOARD_ID".toList)).getD ("1".toList)⟩
  if truthyOpt c.email && truthyOpt c.token && truthyOpt c.base_url then .ok c
  else .exited 1

/-! ## Issue creation field bodies -/

/-- The `fields` object of an issue-creation request body. -/
structure IssueFields where
  project_key : PyStr
  issuetype : PyStr
  summary : PyStr
  description : Option ADFDoc
  parent : Option PyStr

/-- Embeds the `fields` dict of `create_issue` in bulk-create.py (lines
88–95): `'summary': summary[:255]` — the summary is cut to its first 255
characters; no description, no parent. -/
def bulkCreate_fields (projectKey summary issueType : PyStr) : IssueFields :=
  ⟨projectKey, issueType, summary.take 255, none, none⟩

/-- Embeds the `fields` dict of `create_issue` in create-one.py (lines
71–96): the summary is placed UNCHANGED; a truthy description becomes an
inline single-paragraph ADF doc; a truthy parent key becomes `parent`. -/
def createOne_fields (projectKey summary issueType : PyStr)
    (description parentKey : Option PyStr) : IssueFields :=
  ⟨projectKey, issueType, summary,
   match description with
   | some d => if d.isEmpty then none else some ⟨1, [.paragraph [.text d]]⟩
   | none => none,
   match parentKey with
   | some p => if p.isEmpty then none else some p
   | none => none⟩

/-! ## Deletion: 404 handling -/

/-- Embeds `delete_issue` of delete-all.py (lines 88–105): a success response
returns `status == 204`; an `HTTPError` with code 404 returns `True`
("already deleted"); any other `HTTPError` is re-raised bare. -/
def delete_issue (resp : HttpOutcome) : Except PyExc Bool :=
  match resp with
  | .success status _ => .ok (status == 204)
  | .httpError code body =>
      if code == 404 then .ok true else .error (.httpErrorRaised code body)

/-- One iteration of the delete loop of delete-all.py `main` (lines 143–155):
`True` means the `deleted` counter is incremented, `false` means `failed`. -/
def deleteAll_processItem (resp : HttpOutcome) : Bool :=
  match delete_issue resp with
  | .ok b => b
  | .error _ => false

/-- Exit code of the deletion tail of delete-space.py `main` (lines 154–176),
as a function of the HTTP outcome of the space DELETE call: any exception
from `confluence_request` — 403, 404 and everything else alike — prints an
error and exits 1; only a non-raising call reaches the success report. -/
def deleteSpace_exitCode (loads : PyStr → Except PyStr Json)
    (resp : HttpOutcome) : Nat :=
  match confluence_request loads resp with
  | .ok _ => 0
  | .error _ => 1

/-! ## Bulk-create main loop (bulk-create.py lines 122–171) -/

/-- The external world one loop item sees: the outcome of its
`create_issue` call, and — reached only when creation succeeded — the
outcome of `transition_to_done` (whose own `get_transitions` or POST may
raise; `.ok b` is its normal Boolean return). -/
structure ItemWorld where
  createResult : Except PyExc PyStr
  transitionResult : Except PyExc Bool

/-- One iteration of the `for commit_msg in batch` try/except (lines
147–161): `true` means `created += 1` ran, `false` means the except branch
ran (`failed += 1`). A transition exception lands in the same except branch
even though the issue was already created remotely. -/
def processItem (w : ItemWorld) : Bool :=
  match w.createResult with
  | .error _ => false
  | .ok _ =>
      match w.transitionResult with
      | .error _ => false
      | .ok _ => true

/-- Batch splitting of `for i in range(0, len(commits), batch_size)` with
`batch = commits[i:i + batch_size]` and `batch_size = 5` (lines 136–141),
written with a structural fuel bounded by the list length. -/
def toBatchesAux : Nat → List α → List (List α)
  | 0, _ => []
  | _, [] => []
  | fuel + 1, x :: xs => (x :: xs).take 5 :: toBatchesAux fuel ((x :: xs).drop 5)

/-- The list of batches the bulk-create main loop iterates over. -/
def toBatches (l : List α) : List (List α) := toBatchesAux l.length l

/-- Counter update of one item: `(created, failed)`. -/
def stepCounts (world : α → ItemWorld) (acc : Nat × Nat) (item : α) : Nat × Nat :=
  if processItem (world item) then (acc.1 + 1, acc.2) else (acc.1, acc.2 + 1)

/-- Final `(created, failed)` tally of bulk-create's `main`, folding over the
batches exactly as the two nested `for` loops do. -/
def bulkMainCounts (world : α → ItemWorld) (items : List α) : Nat × Nat :=
  (toBatches items).foldl (fun acc batch => batch.foldl (stepCounts world) acc) (0, 0)

/-- The same tally computed directly over the flat item list. -/
def flatCounts (world : α → ItemWorld) (items : List α) : Nat × Nat :=
  items.foldl (stepCounts world) (0, 0)

/-- Number of items whose `create_issue` call succeeded, i.e. issues that
exist remotely after the run regardless of the later tallying. -/
def remoteCreated (world : α → ItemWorld) (items : List α) : Nat :=
  items.countP (fun it =>
    match (world it).createResult with
    | .ok _ => true
    | .error _ => false)

/-! ## Space creation entry point (create-space.py lines 110–125) -/

/-- Characters accepted by the two character classes of the validation
pattern `^[A-Z][A-Z0-9]*$`. -/
def isUpperAZ (c : Char) : Bool := 'A' ≤ c && c ≤ 'Z'

/-- Second character class `[A-Z0-9]` of the space-key pattern. -/
def isUpperAZ09 (c : Char) : Bool := isUpperAZ c || ('0' ≤ c && c ≤ '9')

/-- Embeds `re.match(r'^[A-Z][A-Z0-9]*$', key)` as a Boolean on the key's
characters: non-empty, first character in `[A-Z]`, rest in `[A-Z0-9]`. -/
def validSpaceKey (s : PyStr) : Bool :=
  match s with
  | [] => false
  | c :: rest => isUpperAZ c && rest.all isUpperAZ09

/-- How far `main` of create-space.py gets before its first network call. -/
inductive CreateSpaceStep where
  /-- usage printed, `sys.exit` with the given code (lines 113–115). -/
  | usageExit (code : Nat)
  /-- key failed the pattern, `sys.exit(1)` before any request (122–125). -/
  | invalidKeyExit (code : Nat)
  /-- validation passed; `create_space` is called with this key. -/
  | networkCreate (key : PyStr)
deriving DecidableEq

/-- Embeds the argument handling of create-space.py `main` (lines 110–139):
uppercase the first argument, then validate it against `^[A-Z][A-Z0-9]*$`;
on failure exit 1 before any network call, otherwise proceed to the
`create_space` request with the uppercased key. -/
def createSpace_main (args : List PyStr) : CreateSpaceStep :=
  if args.length < 2 || args.contains ("--help".toList) || args.contains ("-h".toList) then
    .usageExit (if args.contains ("--help".toList) || args.contains ("-h".toList) then 0 else 1)
  else
    let key := pyUpper (args.headD [])
    if validSpaceKey key then .networkCreate key else .invalidKeyExit 1

/-! ## Concrete inputs used by counterexamples and witnesses -/

/-- A transition whose display name is "Done" but whose destination status is
not: `transition_to`'s either-field match accepts it for target "done", while
`transition_to_done`'s to-name-only match does not. -/
def tNameOnly : Transition := ⟨"9".toList, "Done".toList, "Closed".toList⟩

/-- A 256-character summary (one character over the Jira limit). -/
def summary256 : PyStr := List.replicate 256 'a'

/-- An option holds a value that is absent or the empty string — the values
Python's truthiness test in `get_config` rejects besides rejecting `None`. -/
def absentOrEmpty (o : Option PyStr) : Prop := o = none ∨ o = some []

/-- An environment where `JIRA_EMAIL` is present but empty and the other two
required variables are present and non-empty. -/
def envEmptyEmail : Env := fun k =>
  if k = ("JIRA_EMAIL".toList) then some []
  else if k = ("JIRA_API_TOKEN".toList) then some ("t".toList)
  else if k = ("JIRA_BASE_URL".toList) then some ("u".toList)
  else none

/-- An environment with all three required variables present and non-empty. -/
def envFull : Env := fun k =>
  if k = ("JIRA_EMAIL".toList) then some ("e@x".toList)
  else if k = ("JIRA_API_TOKEN".toList) then some ("tok".toList)
  else if k = ("JIRA_BASE_URL".toList) then some ("https://x".toList)
  else none

/-- The config `get_config` returns on `envFull`. -/
def cFull : Config :=
  ⟨some ("e@x".toList), some ("tok".toList), some ("https://x".toList),
   "SCRUM".toList, "1".toList⟩

/-- An environment holding only `JIRA_EMAIL=old`. -/
def envOld : Env := fun k =>
  if k = ("JIRA_EMAIL".toList) then some ("old".toList) else none

/-- An env file trying to overwrite `JIRA_EMAIL`. -/
def linesOverwrite : List PyStr := [("JIRA_EMAIL=new".toList)]

/-- A per-item world where item 1's issue creation succeeds but the
transition-to-Done step raises, and every other item fully succeeds. -/
def exWorld : Nat → ItemWorld := fun n =>
  if n = 1 then ⟨.ok ("SCRUM-2".toList), .error (.exc ("500: boom".toList))⟩
  else ⟨.ok ("SCRUM-1".toList), .ok true⟩

/-- Two bulk-create items, indices 0 and 1. -/
def exItems : List Nat := [0, 1]

/-- A world where every item is created and transitioned successfully. -/
def okWorld : Nat → ItemWorld := fun _ => ⟨.ok ("SCRUM-1".toList), .ok true⟩

/-- Seven bulk-create items, as in the spec's batch scenario. -/
def sevenItems : List Nat := [0, 1, 2, 3, 4, 5, 6]

/-- A concrete world instantiating `ItemWorld` hypotheses in witnesses. -/
def wCreatedThenFail : ItemWorld :=
  ⟨.ok ("SCRUM-9".toList), .error (.exc ("503: x".toList))⟩

/-! ## Helper lemmas -/

/-- The blocks of one section, as coded, are the blocks §4.3 describes. -/
theorem sectionBlocks_eq_spec (s : SectionSpec) :
    sectionBlocks s = specSectionBlocks s := by
  rcases s with ⟨h, l, p, b, c, lang⟩
  cases h <;> cases p <;> cases b <;> cases c <;> rfl

/-- One section contributes exactly one block per present field. -/
theorem sectionBlocks_length (s : SectionSpec) :
    (sectionBlocks s).length = presentFieldCount s := by
  rcases s with ⟨h, l, p, b, c, lang⟩
  cases h <;> cases p <;> cases b <;> cases c <;> rfl

/-- A successful `find?` splits the list at the first hit. -/
theorem find?_eq_some_split {α} (p : α → Bool) :
    ∀ (l : List α) (a : α), l.find? p = some a →
      p a = true ∧ ∃ pre post, l = pre ++ a :: post ∧ ∀ x ∈ pre, p x = false := by
  intro l
  induction l with
  | nil => intro a h; simp [List.find?] at h
  | cons b t ih =>
      intro a h
      by_cases hb : p b = true
      · rw [List.find?_cons_of_pos t hb] at h
        cases h
        exact ⟨hb, [], t, rfl, by simp⟩
      · rw [List.find?_cons_of_neg t hb] at h
        obtain ⟨hpa, pre, post, hsplit, hpre⟩ := ih a h
        refine ⟨hpa, b :: pre, post, by simp [hsplit], ?_⟩
        intro x hx
        rcases List.mem_cons.mp hx with hx | hx
        · subst hx; exact Bool.eq_false_iff.mpr hb
        · exact hpre x hx

/-- Python falsiness of an `os.environ.get` result is absence or emptiness. -/
theorem truthyOpt_eq_false_iff (o : Option PyStr) :
    truthyOpt o = false ↔ absentOrEmpty o := by
  cases o with
  | none => simp [truthyOpt, absentOrEmpty]
  | some s =>
      cases s <;> simp [truthyOpt, absentOrEmpty, List.isEmpty]

/-- `setdefault` never changes a variable that already has a value. -/
theorem setdefault_preserves (env : Env) (k' v' k v : PyStr)
    (h : env k = some v) : setdefault env k' v' k = some v := by
  unfold setdefault
  cases henv : env k' with
  | some _ => exact h
  | none =>
      by_cases hk : k = k'
      · subst hk; rw [henv] at h; cases h
      · simpa [hk] using h

/-- One env-file line never changes a variable that already has a value. -/
theorem processEnvLine_preserves (env : Env) (line k v : PyStr)
    (h : env k = some v) : processEnvLine env line k = some v := by
  unfold processEnvLine
  split
  · exact setdefault_preserves _ _ _ _ _ h
  · exact h

/-- Batches flatten back to the original list (fuel-indexed form). -/
theorem toBatchesAux_flatten {α} :
    ∀ (fuel : Nat) (l : List α), l.length ≤ fuel →
      (toBatchesAux fuel l).flatten = l := by
  intro fuel
  induction fuel with
  | zero =>
      intro l hl
      rw [Nat.le_zero, List.length_eq_zero] at hl
      subst hl; rfl
  | succ fuel ih =>
      intro l hl
      cases l with
      | nil => rfl
      | cons x xs =>
          have hdrop : ((x :: xs).drop 5).length ≤ fuel := by
            simp only [List.length_drop, List.length_cons]
            simp only [List.length_cons] at hl
            omega
          calc (toBatchesAux (fuel + 1) (x :: xs)).flatten
              = (x :: xs).take 5 ++ (toBatchesAux fuel ((x :: xs).drop 5)).flatten := by
                simp [toBatchesAux]
            _ = (x :: xs).take 5 ++ (x :: xs).drop 5 := by rw [ih _ hdrop]
            _ = x :: xs := List.take_append_drop 5 (x :: xs)

/-- Batches flatten back to the original list. -/
theorem toBatches_flatten {α} (l : List α) : (toBatches l).flatten = l :=
  toBatchesAux_flatten l.length l le_rfl

/-- The nested batch fold computes the same tally as the flat fold. -/
theorem bulkMainCounts_eq_flatCounts {α} (world : α → ItemWorld)
    (items : List α) : bulkMainCounts world items = flatCounts world items := by
  unfold bulkMainCounts flatCounts
  rw [← List.foldl_flatten (stepCounts world) (0, 0) (toBatches items),
    toBatches_flatten]

/-- The flat fold counts created and failed items by `processItem`. -/
theorem foldl_stepCounts {α} (world : α → ItemWorld) :
    ∀ (items : List α) (acc : Nat × Nat),
      items.foldl (stepCounts world) acc =
        (acc.1 + items.countP (fun it => processItem (world it)),
         acc.2 + items.countP (fun it => !processItem (world it))) := by
  intro items
  induction items with
  | nil => intro acc; simp
  | cons x xs ih =>
      intro acc
      simp only [List.foldl_cons, ih, List.countP_cons, stepCounts]
      by_cases hx : processItem (world x) = true
      · simp [hx]; omega
      · rw [Bool.not_eq_true] at hx
        simp [hx]; omega

/-! ## Claim theorems -/

/-- Claim C1: for every list of section dicts, the content list of the
document `build_adf` returns has length equal to the sum, over the sections,
of the number of keys present among {heading, paragraph, bullets, code}, and
the blocks appear in section order, within one section in the fixed order
heading, paragraph, bulletList, codeBlock (stated as equality with the
block list `specSectionBlocks` written from the spec's wording). -/
theorem build_adf_block_count_and_order (sections : List SectionSpec) :
    (build_adf sections).content.length = (sections.map presentFieldCount).sum
    ∧ (build_adf sections).content = (sections.map specSectionBlocks).flatten := by
  constructor
  · simp only [build_adf, List.length_flatten, List.map_map]
    congr 1
    exact List.map_congr_left (fun s _ => sectionBlocks_length s)
  · simp only [build_adf]
    congr 1
    exact List.map_congr_left (fun s _ => sectionBlocks_eq_spec s)

/-- Claim C2, counterexample: `transition_to_done` of bulk-create.py does not
match against the display name: a transition named "Done" whose destination
status is "Closed" satisfies the either-field match the claim describes, yet
the lookup returns none. -/
theorem find_done_transition_ignores_display_name :
    transitionMatches ("done".toList) tNameOnly = true
    ∧ (pyLower tNameOnly.name == ("done".toList)) = true
    ∧ find_done_transition [tNameOnly] = none := by decide

/-- Claim C2, amended: `transition_to` of workflow-demo.py matches
case-insensitively against both the destination status name and the display
name and returns the first match in list order (none when nothing matches);
`transition_to_done` of bulk-create.py matches the same way but against the
destination status name only; on the spec's three-transition example with
target "Done" both return the transition with id "21". -/
theorem transition_lookup_first_match_spec (ts : List Transition) (target : PyStr) :
    (find_transition ts target = none ↔ ∀ t ∈ ts, transitionMatches target t = false)
    ∧ (∀ t, find_transition ts target = some t →
        transitionMatches target t = true ∧
        ∃ pre post, ts = pre ++ t :: post ∧ ∀ u ∈ pre, transitionMatches target u = false)
    ∧ (find_done_transition ts = none ↔
        ∀ t ∈ ts, (pyLower t.toName == ("done".toList)) = false)
    ∧ (∀ t, find_done_transition ts = some t →
        (pyLower t.toName == ("done".toList)) = true ∧
        ∃ pre post, ts = pre ++ t :: post ∧
          ∀ u ∈ pre, (pyLower u.toName == ("done".toList)) = false)
    ∧ find_transition exampleTransitions ("Done".toList) =
        some ⟨"21".toList, "Close".toList, "Done".toList⟩
    ∧ find_done_transition exampleTransitions =
        some ⟨"21".toList, "Close".toList, "Done".toList⟩ := by
  refine ⟨?_, ?_, ?_, ?_, by decide, by decide⟩
  · rw [find_transition, List.find?_eq_none]
    simp only [Bool.not_eq_true]
  · intro t h
    exact find?_eq_some_split _ _ _ h
  · rw [find_done_transition, List.find?_eq_none]
    simp only [Bool.not_eq_true]
  · intro t h
    exact find?_eq_some_split _ _ _ h

/-- Claim C2 witness: the amended first-match property evaluated on the
spec's three-transition example with target "Done". -/
theorem transition_lookup_first_match_spec_witness :
    transitionMatches ("Done".toList)
        (⟨"21".toList, "Close".toList, "Done".toList⟩ : Transition) = true
    ∧ ∃ pre post,
        exampleTransitions =
          pre ++ (⟨"21".toList, "Close".toList, "Done".toList⟩ : Transition) :: post
        ∧ ∀ u ∈ pre, transitionMatches ("Done".toList) u = false :=
  (transition_lookup_first_match_spec exampleTransitions ("Done".toList)).2.1
    ⟨"21".toList, "Close".toList, "Done".toList⟩ (by decide)

/-- Claim C3, counterexample: a 404 on the Confluence space DELETE call makes
delete-space.py's main print an error and exit 1, not report success. -/
theorem deleteSpace_404_exits_nonzero :
    deleteSpace_exitCode jsonLoadsModel (.httpError 404 []) = 1 := rfl

/-- Claim C3, amended: a 404 on issue delete is treated as success —
`delete_issue` returns True and delete-all.py's loop counts the item as
deleted — while a 404 on the Confluence space delete makes delete-space.py
print an error message and exit with code 1. -/
theorem delete_404_amended :
    (∀ body, delete_issue (.httpError 404 body) = .ok true)
    ∧ (∀ body, deleteAll_processItem (.httpError 404 body) = true)
    ∧ (∀ loads body, deleteSpace_exitCode loads (.httpError 404 body) = 1) :=
  ⟨fun _ => rfl, fun _ => rfl, fun _ _ => rfl⟩

/-- Claim C4, counterexample: `create_issue` of create-one.py places a
256-character summary in the request body unchanged — its length in the
fields object is 256, not 255. -/
theorem createOne_summary_not_truncated :
    (createOne_fields [] summary256 ("Story".toList) none none).summary = summary256
    ∧ summary256.length = 256 :=
  ⟨rfl, by unfold summary256; exact List.length_replicate 256 'a'⟩

/-- Claim C4, amended: `create_issue` of bulk-create.py truncates the summary
to its first 255 characters before placing it in the request fields (so a
long summary is sent with length exactly 255), while `create_issue` of
create-one.py places the summary unchanged. -/
theorem summary_truncation_amended (pk it s : PyStr) (d p : Option PyStr) :
    (bulkCreate_fields pk s it).summary = s.take 255
    ∧ (255 ≤ s.length → (bulkCreate_fields pk s it).summary.length = 255)
    ∧ (createOne_fields pk s it d p).summary = s := by
  refine ⟨rfl, ?_, rfl⟩
  intro h
  simp only [bulkCreate_fields, List.length_take]
  omega

/-- Claim C4 witness: the 256-character summary is sent by bulk-create.py
with exactly 255 characters. -/
theorem summary_truncation_amended_witness :
    (bulkCreate_fields [] summary256 ("Story".toList)).summary.length = 255 := by
  have h : summary256.length = 256 := by
    unfold summary256; exact List.length_replicate 256 'a'
  exact (summary_truncation_amended [] ("Story".toList) summary256 none none).2.1
    (by omega)

/-- Claim C5: loading the env file never changes an environment variable that
is already set — after the merge every pre-existing variable holds its
original value (process environment takes precedence over the file). -/
theorem load_env_preserves_existing (lines : List PyStr) (env : Env) (k v : PyStr)
    (h : env k = some v) : load_env lines env k = some v := by
  induction lines generalizing env with
  | nil => exact h
  | cons line rest ih =>
      simp only [load_env, List.foldl_cons]
      exact ih _ (processEnvLine_preserves env line k v h)

/-- Claim C5 witness: an env file line `JIRA_EMAIL=new` does not overwrite a
process environment already holding `JIRA_EMAIL=old`. -/
theorem load_env_preserves_existing_witness :
    load_env linesOverwrite envOld ("JIRA_EMAIL".toList) = some ("old".toList) :=
  load_env_preserves_existing linesOverwrite envOld _ _ (by decide)

/-- Claim C6, counterexample: with all three required variables present but
`JIRA_EMAIL` set to the empty string, none of them is absent, yet
`get_config` still exits with code 1 — Python's `all([...])` treats the
empty string as falsy. -/
theorem get_config_rejects_present_empty :
    (envEmptyEmail ("JIRA_EMAIL".toList)).isSome = true
    ∧ (envEmptyEmail ("JIRA_API_TOKEN".toList)).isSome = true
    ∧ (envEmptyEmail ("JIRA_BASE_URL".toList)).isSome = true
    ∧ get_config envEmptyEmail = .exited 1 := by decide

/-- The branch structure of `get_config`, spelled out. -/
theorem get_config_eq (env : Env) :
    get_config env =
      if truthyOpt (env ("JIRA_EMAIL".toList)) &&
          truthyOpt (env ("JIRA_API_TOKEN".toList)) &&
          truthyOpt (env ("JIRA_BASE_URL".toList)) then
        .ok ⟨env ("JIRA_EMAIL".toList), env ("JIRA_API_TOKEN".toList),
          env ("JIRA_BASE_URL".toList),
          (env ("JIRA_PROJECT_KEY".toList)).getD ("SCRUM".toList),
          (env ("JIRA_BOARD_ID".toList)).getD ("1".toList)⟩
      else .exited 1 := rfl

/-- Conjunction of the three truthiness tests is false exactly when one of
the tested values is absent or empty. -/
theorem all_truthy_eq_false_iff (a b c : Option PyStr) :
    (truthyOpt a && truthyOpt b && truthyOpt c) = false ↔
      absentOrEmpty a ∨ absentOrEmpty b ∨ absentOrEmpty c := by
  simp only [← truthyOpt_eq_false_iff, Bool.and_eq_false_iff]
  tauto

/-- Claim C6, amended: `get_config` exits with code 1 (after printing the
required variable names) if and only if at least one of email, API token or
base URL is absent OR equal to the empty string after the merge — Python's
truthiness test rejects empty strings too; when all three are present and
non-empty it returns the config dict holding the environment values, with
project key defaulting to "SCRUM" and board id to "1" when those variables
are absent. -/
theorem get_config_missing_amended (env : Env) :
    (get_config env = .exited 1 ↔
      absentOrEmpty (env ("JIRA_EMAIL".toList)) ∨
      absentOrEmpty (env ("JIRA_API_TOKEN".toList)) ∨
      absentOrEmpty (env ("JIRA_BASE_URL".toList)))
    ∧ (∀ c, get_config env = .ok c →
        c.email = env ("JIRA_EMAIL".toList) ∧
        c.token = env ("JIRA_API_TOKEN".toList) ∧
        c.base_url = env ("JIRA_BASE_URL".toList) ∧
        c.project_key = (env ("JIRA_PROJECT_KEY".toList)).getD ("SCRUM".toList) ∧
        c.board_id = (env ("JIRA_BOARD_ID".toList)).getD ("1".toList)) := by
  constructor
  · rw [get_config_eq, ← all_truthy_eq_false_iff]
    cases hb : (truthyOpt (env ("JIRA_EMAIL".toList)) &&
        truthyOpt (env ("JIRA_API_TOKEN".toList)) &&
        truthyOpt (env ("JIRA_BASE_URL".toList))) with
    | false => simp
    | true => simp
  · intro c hc
    rw [get_config_eq] at hc
    by_cases hb : (truthyOpt (env ("JIRA_EMAIL".toList)) &&
        truthyOpt (env ("JIRA_API_TOKEN".toList)) &&
        truthyOpt (env ("JIRA_BASE_URL".toList))) = true
    · rw [if_pos hb] at hc
      cases hc
      exact ⟨rfl, rfl, rfl, rfl, rfl⟩
    · rw [if_neg hb] at hc
      exact ConfigResult.noConfusion hc

/-- Claim C6 witness: on an environment with all three credentials present
and non-empty and no project/board variables, the returned config carries the
defaults "SCRUM" and "1". -/
theorem get_config_missing_amended_witness :
    cFull.project_key = ("SCRUM".toList) ∧ cFull.board_id = ("1".toList) := by
  have h := (get_config_missing_amended envFull).2 cFull (by decide)
  exact ⟨h.2.2.2.1.trans (by decide), h.2.2.2.2.trans (by decide)⟩

/-- Claim C7, counterexample: the authenticated helper of check-issues.py has
no 204 case — on a 204 response with an empty body it feeds the body to
`json.loads`, which raises a decode error instead of returning an empty
result (the template's `jira_request` on the same input returns `None`). -/
theorem checkIssues_204_not_empty_result :
    checkIssues_make_request jsonLoadsModel (.success 204 []) =
      .error (.jsonDecode ("Expecting value".toList))
    ∧ checkIssues_make_request jsonLoadsModel (.success 204 []) ≠ .ok Json.null
    ∧ jira_request jsonLoadsModel (.success 204 []) = .ok .null := by
  refine ⟨rfl, ?_, rfl⟩
  intro h
  rw [show checkIssues_make_request jsonLoadsModel (.success 204 []) =
      .error (.jsonDecode ("Expecting value".toList)) from rfl] at h
  exact Except.noConfusion h

/-- Claim C7, amended: the template's `jira_request` (and the identical
script copies) returns an empty result on status 204 and `confluence_request`
on 204 or 202; any other success body is returned parsed as JSON; an HTTP
error raises an exception whose message carries the numeric status code
followed by at most the first 300 (template, Confluence) or 200 (scripts)
characters of the response body. The helper of check-issues.py is the
exception: it has no 204 case and parses every success body. -/
theorem request_helper_amended (loads : PyStr → Except PyStr Json)
    (status code : Nat) (body : PyStr) (j : Json) :
    (jira_request loads (.success 204 body) = .ok .null)
    ∧ (status ≠ 204 → loads body = .ok j →
        jira_request loads (.success status body) = .ok j)
    ∧ (jira_request loads (.httpError code body) =
        .error (.exc (pyStrOfNat code ++ (": ".toList) ++ body.take 300)))
    ∧ (body.take 300).length ≤ 300
    ∧ (scripts_make_request loads (.success 204 body) = .ok .null)
    ∧ (scripts_make_request loads (.httpError code body) =
        .error (.exc (pyStrOfNat code ++ (": ".toList) ++ body.take 200)))
    ∧ (confluence_request loads (.success 204 body) = .ok .null)
    ∧ (confluence_request loads (.success 202 body) = .ok .null)
    ∧ (confluence_request loads (.httpError code body) =
        .error (.exc (pyStrOfNat code ++ (": ".toList) ++ body.take 300)))
    ∧ (loads body = .ok j →
        checkIssues_make_request loads (.success status body) = .ok j)
    ∧ (checkIssues_make_request loads (.httpError code body) =
        .error (.exc (pyStrOfNat code ++ (": ".toList) ++ body.take 200)))
    ∧ (body.take 200).length ≤ 200 := by
  refine ⟨rfl, ?_, rfl, ?_, rfl, rfl, rfl, rfl, rfl, ?_, rfl, ?_⟩
  · intro hs hload
    have hb : (status == 204) = false := by simpa using hs
    simp [jira_request, hb, hload]
  · simp only [List.length_take]
    omega
  · intro hload
    simp [checkIssues_make_request, hload]
  · simp only [List.length_take]
    omega

/-- Claim C7 witness: the amended helper behaviour evaluated at status 200
with body "x" and at an HTTP 500 error. -/
theorem request_helper_amended_witness :
    jira_request jsonLoadsModel (.success 200 ("x".toList)) =
      .ok (.str ("x".toList))
    ∧ checkIssues_make_request jsonLoadsModel (.success 200 ("x".toList)) =
      .ok (.str ("x".toList)) :=
  ⟨(request_helper_amended jsonLoadsModel 200 500 ("x".toList)
      (.str ("x".toList))).2.1 (by decide) rfl,
   (request_helper_amended jsonLoadsModel 200 500 ("x".toList)
      (.str ("x".toList))).2.2.2.2.2.2.2.2.2.1 rfl⟩

/-- Claim C8: the bulk-create loop splits the items into consecutive batches
of size 5 (the batches flatten back to the item list in order, and 7 items
give batch sizes [5, 2]); every item increments exactly one of the created or
failed counters — an error on one item only adds to the failed count and
never stops later items, the final tally counting each item by its own
outcome — and created plus failed equals the number of items. -/
theorem bulk_create_batches_and_tally {α} (items : List α) (world : α → ItemWorld) :
    (toBatches items).flatten = items
    ∧ (items.length = 7 → (toBatches items).map List.length = [5, 2])
    ∧ bulkMainCounts world items =
        (items.countP (fun it => processItem (world it)),
         items.countP (fun it => !processItem (world it)))
    ∧ (bulkMainCounts world items).1 + (bulkMainCounts world items).2 = items.length := by
  have hcounts : bulkMainCounts world items =
      (items.countP (fun it => processItem (world it)),
       items.countP (fun it => !processItem (world it))) := by
    rw [bulkMainCounts_eq_flatCounts]
    unfold flatCounts
    rw [foldl_stepCounts]
    simp
  refine ⟨toBatches_flatten items, ?_, hcounts, ?_⟩
  · intro h7
    have hb : toBatches items = toBatchesAux 7 items := by rw [toBatches, h7]
    rw [hb]
    cases items with
    | nil => simp at h7
    | cons x xs =>
        have hdlen : ((x :: xs).drop 5).length = 2 := by
          simp only [List.length_drop, h7]
        cases hd : (x :: xs).drop 5 with
        | nil => rw [hd] at hdlen; simp at hdlen
        | cons y ys =>
            have hylen : (y :: ys).length = 2 := by rw [← hd]; exact hdlen
            have step1 : toBatchesAux 7 (x :: xs) =
                (x :: xs).take 5 :: toBatchesAux 6 ((x :: xs).drop 5) := rfl
            have step2 : toBatchesAux 6 (y :: ys) =
                (y :: ys).take 5 :: toBatchesAux 5 ((y :: ys).drop 5) := rfl
            have htake : (y :: ys).take 5 = y :: ys :=
              List.take_of_length_le (by rw [hylen]; norm_num)
            have hdrop2 : (y :: ys).drop 5 = [] :=
              List.drop_eq_nil_of_le (by rw [hylen]; norm_num)
            rw [step1, hd, step2, htake, hdrop2]
            simp only [List.length_cons] at h7
            simp [toBatchesAux, List.length_take, hylen]
            omega
  · rw [hcounts]
    have h := List.length_eq_countP_add_countP (fun it => processItem (world it)) items
    simp only [decide_not, Bool.decide_eq_true] at h
    simp only []
    omega

/-- Claim C8 witness: seven items are split into batches of sizes 5 and 2. -/
theorem bulk_create_batches_and_tally_witness :
    (toBatches sevenItems).map List.length = [5, 2] :=
  (bulk_create_batches_and_tally sevenItems okWorld).2.1 (by decide)

/-- Claim C9: the space-creation entry point uppercases the key argument and
then validates it against `^[A-Z][A-Z0-9]*$`; "docs" becomes "DOCS" and
reaches the network call, "1DOC" fails the pattern and exits 1 before any
network call; in general the network step is only ever reached with the
uppercased key, and only when that key passes the pattern. -/
theorem createSpace_key_normalize_validate (args : List PyStr) (k : PyStr) :
    createSpace_main [("docs".toList), ("My Docs".toList)] =
      .networkCreate ("DOCS".toList)
    ∧ createSpace_main [("1DOC".toList), ("X".toList)] = .invalidKeyExit 1
    ∧ pyUpper ("docs".toList) = ("DOCS".toList)
    ∧ validSpaceKey ("DOCS".toList) = true
    ∧ validSpaceKey ("1DOC".toList) = false
    ∧ (createSpace_main args = .networkCreate k →
        k = pyUpper (args.headD []) ∧ validSpaceKey k = true)
    ∧ (validSpaceKey (pyUpper (args.headD [])) = false →
        createSpace_main args ≠ .networkCreate k) := by
  have hmain : ∀ (args : List PyStr) (k : PyStr),
      createSpace_main args = .networkCreate k →
      k = pyUpper (args.headD []) ∧ validSpaceKey k = true := by
    intro args k h
    unfold createSpace_main at h
    split at h
    · exact CreateSpaceStep.noConfusion h
    · by_cases hv : validSpaceKey (pyUpper (args.headD [])) = true
      · rw [if_pos hv] at h
        cases h
        exact ⟨rfl, hv⟩
      · rw [if_neg hv] at h
        exact CreateSpaceStep.noConfusion h
  refine ⟨by decide, by decide, by decide, by decide, by decide,
    hmain args k, fun hval h => ?_⟩
  obtain ⟨hk, hv⟩ := hmain args k h
  rw [hk] at hv
  rw [hv] at hval
  exact Bool.noConfusion hval

/-- Claim C9 witness: for the argument "docs" the network step is reached
with the uppercased key "DOCS", which passes the pattern. -/
theorem createSpace_key_normalize_validate_witness :
    ("DOCS".toList) = pyUpper (([("docs".toList), ("X".toList)] : List PyStr).headD [])
    ∧ validSpaceKey ("DOCS".toList) = true :=
  (createSpace_key_normalize_validate [("docs".toList), ("X".toList)]
    ("DOCS".toList)).2.2.2.2.2.1 (by decide)

/-- Claim C10: an item whose issue creation succeeds but whose
transition-to-Done step raises increments the failed counter, not the created
counter, so the reported created count never exceeds — and can be strictly
below — the number of issues actually created remotely: on `exWorld` the loop
reports 1 created although 2 issues were created remotely. -/
theorem created_tally_undercounts {α} (w : ItemWorld) (k : PyStr) (e : PyExc)
    (items : List α) (world : α → ItemWorld) :
    (w.createResult = .ok k → w.transitionResult = .error e → processItem w = false)
    ∧ (bulkMainCounts world items).1 ≤ remoteCreated world items
    ∧ (bulkMainCounts exWorld exItems).1 = 1
    ∧ remoteCreated exWorld exItems = 2
    ∧ (bulkMainCounts exWorld exItems).1 < remoteCreated exWorld exItems := by
  refine ⟨?_, ?_, by decide, by decide, by decide⟩
  · intro h1 h2
    simp [processItem, h1, h2]
  · rw [bulkMainCounts_eq_flatCounts]
    unfold flatCounts
    rw [foldl_stepCounts]
    simp only [Nat.zero_add]
    unfold remoteCreated
    apply List.countP_mono_left
    intro a _ hpa
    unfold processItem at hpa
    cases hc : (world a).createResult with
    | error _ => rw [hc] at hpa; simp at hpa
    | ok _ => simp

/-- Claim C10 witness: the per-item rule evaluated on a concrete item whose
creation succeeded and whose transition raised. -/
theorem created_tally_undercounts_witness : processItem wCreatedThenFail = false :=
  (created_tally_undercounts wCreatedThenFail ("SCRUM-9".toList)
    (.exc ("503: x".toList)) exItems exWorld).1 rfl rfl
